import Mathlib

/-!
Shallow embedding of the TacoCat application (src/models.py and
src/tacocat.py): a User table with bcrypt-hashed passwords, a Taco table
owned by users, and the Flask request handlers for registration, login,
logout, taco creation and the homepage feed.

The persistent store is modelled as an explicit `DB` value threaded through
the operations; the SQLite rows appear in insertion order, matching the
rowid order that the unqualified `select()` calls of the source observe.
Third-party code that the source calls but that is not part of this
repository (flask_bcrypt, flask_login's login_required, the WTForms
classes of the absent forms.py) is modelled from the spec, with a doc
comment saying so on each such definition.
-/

/-- Python str.strip() with no argument: drops leading and trailing
whitespace characters, as used on the extras field in the /taco handler. -/
def pyStrip (s : String) : String :=
  String.mk (((s.data.dropWhile Char.isWhitespace).reverse.dropWhile
    Char.isWhitespace).reverse)

/-- Modelled from the spec: flask_bcrypt.generate_password_hash, which is not
part of this repository. Per the spec it is a one-way salted hash whose output
never equals the plaintext; we model it as a bcrypt-tagged string embedding
the (caller-supplied, in reality random) salt, which preserves the spec-level
facts the claims use: the output never equals the plaintext, and verification
succeeds exactly for the plaintext the hash was produced from. -/
def generate_password_hash (salt : Nat) (password : String) : String :=
  "$2b$" ++ toString salt ++ "$" ++ password

/-- Modelled from the spec: flask_bcrypt.check_password_hash, which is not
part of this repository: true iff the hash string was produced from this
plaintext (with the salt embedded in the hash). -/
def check_password_hash (hash password : String) : Bool :=
  match hash.data with
  | '$' :: '2' :: 'b' :: '$' :: rest =>
      let salt := rest.takeWhile Char.isDigit
      !salt.isEmpty && rest == salt ++ '$' :: password.data
  | _ => false

/-- Row of the User table (models.py): unique email, and the bcrypt hash
stored in the `password` column. The surrogate `id` primary key is implicit
in peewee and made explicit here. -/
structure User where
  id : Nat
  email : String
  password : String
  deriving DecidableEq, Repr

/-- Row of the Taco table (models.py): owning user (foreign key), protein,
shell, cheese flag and free-text extras. -/
structure Taco where
  id : Nat
  user : Nat
  protein : String
  shell : String
  cheese : Bool
  extras : String
  deriving DecidableEq, Repr

/-- The SQLite database `tacos.db`: both tables in rowid (insertion) order,
plus the next fresh surrogate key for each table. -/
structure DB where
  users : List User
  tacos : List Taco
  nextUserId : Nat
  nextTacoId : Nat
  deriving DecidableEq, Repr

/-- The store before any row is inserted. -/
def DB.empty : DB :=
  { users := [], tacos := [], nextUserId := 1, nextTacoId := 1 }

/-- No two user rows share an email: the invariant enforced by the
`unique=True` constraint on the email column. -/
def DB.emailsUnique (db : DB) : Prop :=
  ∀ u ∈ db.users, ∀ v ∈ db.users, u.email = v.email → u = v

instance (db : DB) : Decidable db.emailsUnique := by
  unfold DB.emailsUnique; infer_instance

/-- The user row that a successful `User.create_user(email, password)` call
inserts: fresh id, the email, and the hashed password. -/
def User.newRow (db : DB) (email password : String) (salt : Nat) : User :=
  { id := db.nextUserId, email := email,
    password := generate_password_hash salt password }

/-- Appends one user row and advances the fresh-key counter (the effect of a
committed `cls.create(...)` on the User table). -/
def DB.insertUser (db : DB) (u : User) : DB :=
  { db with users := db.users ++ [u], nextUserId := db.nextUserId + 1 }

/-- models.py, `User.create_user`: inside a transaction, insert a row with the
email and the hashed password. The unique constraint on email makes the insert
raise IntegrityError exactly when a row with that email already exists; the
method catches it and re-raises `ValueError("User already exists.")`, and the
transaction rolls back so the store is unchanged. The Python method has no
return statement, so on success it returns None: the second component of the
ok result records that returned value. The salt consumed by the hash call is
an explicit parameter here. -/
def User.create_user (db : DB) (email password : String) (salt : Nat) :
    Except String (DB × Option Nat) :=
  if db.users.any (fun u => u.email == email) then
    Except.error "User already exists."
  else
    Except.ok (db.insertUser (User.newRow db email password salt), none)

/-- tacocat.py line 66: `models.User.get(models.User.email == email)`, the
lookup-by-email used by the login handler; first matching row, or DoesNotExist
modelled as none. The spec names this operation `find_by_email`. -/
def User.find_by_email (db : DB) (email : String) : Option User :=
  db.users.find? (fun u => u.email == email)

/-- tacocat.py, `load_user`: `User.get(User.id == userid)` with DoesNotExist
caught and turned into None. -/
def load_user (db : DB) (userid : Nat) : Option User :=
  db.users.find? (fun u => u.id == userid)

/-- peewee `Taco.select()`: all taco rows in rowid (insertion) order. -/
def Taco.select (db : DB) : List Taco :=
  db.tacos

/-- tacocat.py, `index`: `models.Taco.select().limit(100)`, the homepage
feed. -/
def index (db : DB) : List Taco :=
  (Taco.select db).take 100

/-- A value passed as a keyword argument to a peewee `create(...)` call. -/
inductive FieldValue where
  | str : String → FieldValue
  | bool : Bool → FieldValue
  | userRef : Nat → FieldValue
  deriving DecidableEq, Repr

/-- The column names the Taco schema defines (models.py lines 27-31). -/
def Taco.schemaFields : List String :=
  ["user", "protein", "shell", "cheese", "extras"]

/-- models.py, `Taco.taco_creation`: the keyword arguments it passes to
`cls.create(...)`, as (field name, value) pairs in source order. Note the
last pair: the extras argument is passed under the name `extrax`. -/
def Taco.taco_creation (user : Nat) (protein : String) (cheese : Bool)
    (shell extras : String) : List (String × FieldValue) :=
  [("user", FieldValue.userRef user), ("protein", FieldValue.str protein),
   ("shell", FieldValue.str shell), ("cheese", FieldValue.bool cheese),
   ("extrax", FieldValue.str extras)]

/-- tacocat.py lines 93-98: the keyword arguments of the direct
`models.Taco.create(...)` call in the /taco handler (the live creation
path). -/
def tacoHandlerKwargs (user : Nat) (protein shell : String) (cheese : Bool)
    (extras : String) : List (String × FieldValue) :=
  [("user", FieldValue.userRef user), ("protein", FieldValue.str protein),
   ("shell", FieldValue.str shell), ("cheese", FieldValue.bool cheese),
   ("extras", FieldValue.str (pyStrip extras))]

/-- An HTTP response as the claims observe it: status code, redirect target
when the response is a redirect, and the flash messages (message, category)
queued during the request. -/
structure Response where
  status : Nat
  location : Option String
  flashes : List (String × String)
  deriving DecidableEq, Repr

/-- The registration form fields (POST /register). -/
structure RegisterForm where
  email : String
  password : String
  password2 : String
  deriving DecidableEq, Repr

/-- Modelled from the spec: forms.py is not in src. Per the spec the register
form requires the fields present and the two passwords to match; it performs
no duplicate-email check (uniqueness is enforced by the storage layer). -/
def RegisterForm.validate (f : RegisterForm) : Bool :=
  f.email != "" && f.password != "" && f.password == f.password2

/-- tacocat.py, `register`: on a validated submission, flash success, call
`User.create_user`, redirect to `/`. The handler has no try/except, so a
ValueError raised by `create_user` propagates out of the handler (the error
case of this function); otherwise the form page is re-rendered with 200. -/
def register (db : DB) (form : RegisterForm) (salt : Nat) :
    Except String (Response × DB) :=
  if form.validate then
    match User.create_user db form.email form.password salt with
    | Except.error e => Except.error e
    | Except.ok (db2, _) =>
        Except.ok ({ status := 302, location := some "/",
                     flashes := [("You registered", "success")] }, db2)
  else
    Except.ok ({ status := 200, location := none, flashes := [] }, db)

/-- Outcome of the login handler: the HTTP response and the session user id
after the request (some id once `login_user` has run). -/
structure LoginResult where
  response : Response
  session : Option Nat
  deriving DecidableEq, Repr

/-- tacocat.py, `login` (lines 65-76, the credential logic of a submitted
form): look the user up by email; DoesNotExist flashes the generic failure
message and re-renders with 200; a found user whose stored hash verifies is
logged in (session set to the user id) and redirected to `/`; a found user
whose hash does not verify flashes the same generic message and re-renders
with 200. -/
def login (db : DB) (email password : String) : LoginResult :=
  match User.find_by_email db email with
  | none =>
      { response :=
          { status := 200, location := none,
            flashes := [("Your email or password doesn\x27t match!", "error")] },
        session := none }
  | some user =>
      if check_password_hash user.password password then
        { response :=
            { status := 302, location := some "/",
              flashes := [("You\x27ve been logged in", "success")] },
          session := some user.id }
      else
        { response :=
            { status := 200, location := none,
              flashes := [("Your email or password doesn\x27t match!", "error")] },
          session := none }

/-- tacocat.py, `logout`, guarded by login_required. Modelled from the spec
for the guard: an Anonymous caller (session none) is redirected to the login
view and the handler body does not run; an authenticated caller has the
session torn down (`logout_user`), a flash queued, and is redirected to
`/`. Result: the response and the session after the request. -/
def logout (_db : DB) (session : Option Nat) : Response × Option Nat :=
  match session with
  | none =>
      ({ status := 302, location := some "/login", flashes := [] }, none)
  | some _ =>
      ({ status := 302, location := some "/",
         flashes := [("You\x27ve been logged out!", "success")] }, none)

/-- The taco-creation form fields (POST /taco). -/
structure TacoForm where
  protein : String
  shell : String
  cheese : Bool
  extras : String
  deriving DecidableEq, Repr

/-- Modelled from the spec: forms.py is not in src. Per the spec protein and
shell are required short strings with no further validation; cheese is a
boolean; extras must be present but may be empty after trimming, so it is
unconstrained here. -/
def TacoForm.validate (f : TacoForm) : Bool :=
  f.protein != "" && f.shell != ""

/-- tacocat.py, `taco`, guarded by login_required (guard modelled from the
spec as for `logout`): an Anonymous caller is redirected to the login view
and no row is inserted. For an authenticated caller, a validated submission
inserts a Taco row owned by the session user with extras stripped of
surrounding whitespace, flashes success and redirects to `/`; otherwise the
form page is rendered with 200. `validate` false also covers a plain GET
(validate_on_submit is false on GET). -/
def taco (db : DB) (session : Option Nat) (form : TacoForm) : Response × DB :=
  match session with
  | none =>
      ({ status := 302, location := some "/login", flashes := [] }, db)
  | some uid =>
      if form.validate then
        ({ status := 302, location := some "/",
           flashes := [("Taco has been created!", "success")] },
         { db with
             tacos := db.tacos ++
               [{ id := db.nextTacoId, user := uid, protein := form.protein,
                  shell := form.shell, cheese := form.cheese,
                  extras := pyStrip form.extras }],
             nextTacoId := db.nextTacoId + 1 })
      else
        ({ status := 200, location := none, flashes := [] }, db)

/-- The user seeded by tacocat.py's main block, as a sample row. -/
def sampleUser : User :=
  { id := 1, email := "ziru@test.com",
    password := generate_password_hash 12 "password" }

/-- A sample store holding only the seeded user. -/
def sampleDB : DB :=
  { users := [sampleUser], tacos := [], nextUserId := 2, nextTacoId := 1 }

/-- A sample submitted taco form whose extras is whitespace only. -/
def sampleTacoForm : TacoForm :=
  { protein := "chicken", shell := "flour", cheese := false, extras := "   " }

/-! ## Helper lemmas -/

/-- The modelled bcrypt output never equals the plaintext: it is strictly
longer (tag, salt and separator precede the embedded plaintext). -/
theorem generate_password_hash_ne (salt : Nat) (pw : String) :
    generate_password_hash salt pw ≠ pw := by
  intro h
  have hl := congrArg String.length h
  unfold generate_password_hash at hl
  have h4 : ("$2b$" : String).length = 4 := rfl
  have h1 : ("$" : String).length = 1 := rfl
  rw [String.length_append, String.length_append, String.length_append,
    h4, h1] at hl
  omega

/-- Looking up a freshly inserted user by its email finds exactly that row,
provided no earlier row already carries the email. -/
theorem find_by_email_insert (db : DB) (u : User) (email : String)
    (hu : u.email = email) (h : ∀ v ∈ db.users, v.email ≠ email) :
    User.find_by_email (db.insertUser u) email = some u := by
  unfold User.find_by_email DB.insertUser
  rw [List.find?_append]
  have hnone : db.users.find? (fun v => v.email == email) = none := by
    rw [List.find?_eq_none]
    intro v hv
    simpa using h v hv
  rw [hnone]
  simp [List.find?_cons, hu]

/-- Stripping a string made of whitespace only yields the empty string. -/
theorem pyStrip_all_whitespace (s : String)
    (h : s.data.all Char.isWhitespace = true) : pyStrip s = "" := by
  unfold pyStrip
  have h1 : s.data.dropWhile Char.isWhitespace = [] := by
    rw [List.dropWhile_eq_nil_iff]
    intro x hx
    exact List.all_eq_true.mp h x hx
  rw [h1]
  rfl

/-! ## Claims -/

/-- C1 counterexample: at a concrete store and a non-empty email and password,
`User.create_user` succeeds but its returned value is None, not the identity
of the newly created user (which is 2 here): the Python method has no return
statement. -/
theorem c1_counterexample :
    User.create_user sampleDB "a@example.com" "secret" 7 =
      Except.ok
        ({ users := [sampleUser,
            { id := 2, email := "a@example.com",
              password := generate_password_hash 7 "secret" }],
           tacos := [], nextUserId := 3, nextTacoId := 1 }, none)
    ∧ (none : Option Nat) ≠ some 2 := by
  refine ⟨rfl, by simp⟩

/-- C1 (amended): for every non-empty email and password not already
registered, a successful call to `create_user` returns None (no value); the
newly created user row is nonetheless persisted with the store's next fresh
identity and is retrievable by email. -/
theorem c1_create_user_returns_no_identity (db : DB) (email pw : String)
    (salt : Nat) (h : ∀ u ∈ db.users, u.email ≠ email) :
    User.create_user db email pw salt =
      Except.ok (db.insertUser (User.newRow db email pw salt), none)
    ∧ User.find_by_email (db.insertUser (User.newRow db email pw salt))
        email = some (User.newRow db email pw salt) := by
  have hany : db.users.any (fun u => u.email == email) = false := by
    rw [List.any_eq_false]
    intro u hu
    simpa using h u hu
  constructor
  · unfold User.create_user
    simp [hany]
  · exact find_by_email_insert db (User.newRow db email pw salt) email rfl h

/-- C1 witness: the amended statement at the sample store and a fresh
email. -/
theorem c1_create_user_witness :
    (∀ u ∈ sampleDB.users, u.email ≠ "b@example.com")
    ∧ (User.create_user sampleDB "b@example.com" "pw" 3 =
        Except.ok
          (sampleDB.insertUser (User.newRow sampleDB "b@example.com" "pw" 3),
           none)
      ∧ User.find_by_email
          (sampleDB.insertUser (User.newRow sampleDB "b@example.com" "pw" 3))
          "b@example.com" =
          some (User.newRow sampleDB "b@example.com" "pw" 3)) :=
  ⟨by decide,
   c1_create_user_returns_no_identity sampleDB "b@example.com" "pw" 3
     (by decide)⟩

/-- C2 (code bug evidence): a POST to /register whose form validates but whose
email is already registered makes the handler propagate the ValueError raised
by `User.create_user` — the handler has no try/except — instead of flashing a
message with HTTP 200. -/
theorem c2_register_crashes_on_duplicate :
    register sampleDB
      { email := "ziru@test.com", password := "pw", password2 := "pw" } 3 =
      Except.error "User already exists." := by
  rfl

/-- C3: `Taco.taco_creation` passes the extras argument under the keyword
`extrax`; no keyword argument of the call sets the schema field `extras`, and
`extrax` is not a field of the Taco schema, so a Taco created through this
classmethod does not get its `extras` field set to the supplied value. The
live creation path (the /taco handler's direct `Taco.create`) does set the
`extras` keyword, to the stripped submitted value. -/
theorem c3_taco_creation_misnames_extras (user : Nat) (protein : String)
    (cheese : Bool) (shell extras : String) :
    (Taco.taco_creation user protein cheese shell extras).lookup "extras" =
      none
    ∧ (Taco.taco_creation user protein cheese shell extras).lookup "extrax" =
        some (FieldValue.str extras)
    ∧ "extrax" ∉ Taco.schemaFields
    ∧ (tacoHandlerKwargs user protein shell cheese extras).lookup "extras" =
        some (FieldValue.str (pyStrip extras)) := by
  refine ⟨rfl, rfl, by decide, rfl⟩

/-- C4: for every (email, password) pair against a store with unique emails,
`login` succeeds (302 redirect with the session set) iff a user with that
email exists whose stored hash verifies against the password; and whenever no
such user exists — email not found, or hash not verifying — the result is one
and the same generic failure (200, the generic flash, no session), with no
distinction visible to the caller. -/
theorem c4_login_iff (db : DB) (email password : String)
    (huniq : db.emailsUnique) :
    (((login db email password).response.status = 302 ∧
        (login db email password).session ≠ none) ↔
      ∃ u, u ∈ db.users ∧ u.email = email ∧
        check_password_hash u.password password = true)
    ∧ ((¬ ∃ u, u ∈ db.users ∧ u.email = email ∧
          check_password_hash u.password password = true) →
        login db email password =
          { response :=
              { status := 200, location := none,
                flashes :=
                  [("Your email or password doesn\x27t match!", "error")] },
            session := none }) := by
  cases hfind : User.find_by_email db email with
  | none =>
    have hall : ∀ u ∈ db.users, ¬(u.email == email) = true := by
      rw [← List.find?_eq_none]
      exact hfind
    constructor
    · constructor
      · rintro ⟨h302, -⟩
        simp [login, hfind] at h302
      · rintro ⟨u, hu, he, -⟩
        have := hall u hu
        simp [he] at this
    · intro _
      simp [login, hfind]
  | some u0 =>
    have hmem : u0 ∈ db.users := List.mem_of_find?_eq_some hfind
    have he0 : u0.email = email := by
      simpa using List.find?_some hfind
    cases hchk : check_password_hash u0.password password with
    | true =>
      constructor
      · constructor
        · intro _
          exact ⟨u0, hmem, he0, hchk⟩
        · intro _
          simp [login, hfind, hchk]
      · intro hno
        exact absurd ⟨u0, hmem, he0, hchk⟩ hno
    | false =>
      constructor
      · constructor
        · rintro ⟨h302, -⟩
          simp [login, hfind, hchk] at h302
        · rintro ⟨u, hu, he, hc⟩
          have heq : u = u0 := huniq u hu u0 hmem (he.trans he0.symm)
          rw [heq, hchk] at hc
          cases hc
      · intro _
        simp [login, hfind, hchk]

/-- C4 witness: the seeded store with its correct credentials. -/
theorem c4_login_iff_witness :
    sampleDB.emailsUnique
    ∧ ((((login sampleDB "ziru@test.com" "password").response.status = 302 ∧
          (login sampleDB "ziru@test.com" "password").session ≠ none) ↔
        ∃ u, u ∈ sampleDB.users ∧ u.email = "ziru@test.com" ∧
          check_password_hash u.password "password" = true)
      ∧ ((¬ ∃ u, u ∈ sampleDB.users ∧ u.email = "ziru@test.com" ∧
            check_password_hash u.password "password" = true) →
          login sampleDB "ziru@test.com" "password" =
            { response :=
                { status := 200, location := none,
                  flashes :=
                    [("Your email or password doesn\x27t match!", "error")] },
              session := none })) :=
  ⟨by decide, c4_login_iff sampleDB "ziru@test.com" "password" (by decide)⟩

/-- C5: starting from the empty store, the first `create_user` with an email
succeeds (returning None), the second call with the same email fails with the
distinct duplicate-user ValueError — the IntegrityError of the uniqueness
constraint is caught inside `create_user` and never escapes raw — and the
user count after both calls is exactly 1: the failed insert leaves the store
unchanged (the error result carries no new state). -/
theorem c5_duplicate_create_user (email pw1 pw2 : String) (s1 s2 : Nat) :
    User.create_user DB.empty email pw1 s1 =
      Except.ok
        (DB.insertUser DB.empty (User.newRow DB.empty email pw1 s1), none)
    ∧ User.create_user
        (DB.insertUser DB.empty (User.newRow DB.empty email pw1 s1))
        email pw2 s2 = Except.error "User already exists."
    ∧ List.length
        (DB.insertUser DB.empty (User.newRow DB.empty email pw1 s1)).users =
        1 := by
  refine ⟨?_, ?_, rfl⟩
  · unfold User.create_user
    simp [DB.empty]
  · unfold User.create_user
    simp [DB.insertUser, DB.empty, User.newRow]

/-- C6: after any successful `create_user(email, password)`, looking the email
up (the login handler's `User.get` by email, named find_by_email in the spec)
yields exactly the new row, and its stored password field is never the
plaintext password. -/
theorem c6_stored_password_not_plaintext (db : DB) (email pw : String)
    (salt : Nat) (db2 : DB) (r : Option Nat)
    (h : User.create_user db email pw salt = Except.ok (db2, r)) :
    User.find_by_email db2 email = some (User.newRow db email pw salt)
    ∧ (User.newRow db email pw salt).password ≠ pw := by
  unfold User.create_user at h
  by_cases hany : db.users.any (fun u => u.email == email) = true
  · rw [if_pos hany] at h
    cases h
  · rw [if_neg hany] at h
    rw [Except.ok.injEq, Prod.mk.injEq] at h
    obtain ⟨h1, -⟩ := h
    subst h1
    have hall : ∀ v ∈ db.users, v.email ≠ email := by
      intro v hv
      have := List.any_eq_false.mp (Bool.not_eq_true _ ▸ hany) v hv
      simpa using this
    exact ⟨find_by_email_insert db (User.newRow db email pw salt) email rfl
        hall,
      generate_password_hash_ne salt pw⟩

/-- C6 witness: a concrete successful creation on the sample store. -/
theorem c6_stored_password_witness :
    User.create_user sampleDB "c@example.com" "secret" 5 =
      Except.ok
        (sampleDB.insertUser (User.newRow sampleDB "c@example.com" "secret" 5),
         none)
    ∧ (User.find_by_email
        (sampleDB.insertUser (User.newRow sampleDB "c@example.com" "secret" 5))
        "c@example.com" =
        some (User.newRow sampleDB "c@example.com" "secret" 5)
      ∧ (User.newRow sampleDB "c@example.com" "secret" 5).password ≠
          "secret") :=
  ⟨rfl,
   c6_stored_password_not_plaintext sampleDB "c@example.com" "secret" 5 _
     none rfl⟩

/-- C7: an unauthenticated (Anonymous) request to /taco or /logout — whatever
the submitted form, covering GET — yields a redirect (302 to the login view),
the store is unchanged (no taco created), no flash from either handler body is
queued (the bodies never run), and the session stays absent (nothing is torn
down). -/
theorem c7_unauthenticated_redirects (db : DB) (form : TacoForm) :
    taco db none form =
      ({ status := 302, location := some "/login", flashes := [] }, db)
    ∧ logout db none =
      ({ status := 302, location := some "/login", flashes := [] }, none) :=
  ⟨rfl, rfl⟩

/-- C8: the homepage feed holds at most 100 tacos, each feed entry is the
stored taco at the same position (insertion order preserved), and an empty
store renders an empty feed without error. -/
theorem c8_feed_capped_in_order (db : DB) :
    (index db).length ≤ 100
    ∧ (∀ i, ∀ h : i < (index db).length,
        ∃ h2 : i < db.tacos.length,
          (index db).get ⟨i, h⟩ = db.tacos.get ⟨i, h2⟩)
    ∧ (db.tacos = [] → index db = []) := by
  refine ⟨?_, ?_, ?_⟩
  · unfold index Taco.select
    rw [List.length_take]
    exact min_le_left _ _
  · intro i h
    have h2 : i < db.tacos.length := by
      have h3 := h
      unfold index Taco.select at h3
      rw [List.length_take] at h3
      exact lt_of_lt_of_le h3 (min_le_right _ _)
    refine ⟨h2, ?_⟩
    unfold index Taco.select
    simp [List.getElem_take]
  · intro hnil
    unfold index Taco.select
    rw [hnil]
    rfl

/-- C8 witness: the sample store has no tacos, so the feed is empty and within
the cap. -/
theorem c8_feed_witness :
    (index sampleDB).length ≤ 100 ∧ index sampleDB = [] :=
  ⟨(c8_feed_capped_in_order sampleDB).1,
   (c8_feed_capped_in_order sampleDB).2.2 rfl⟩

/-- C9: when the session's stored user id matches no existing user row, the
session user loader returns None (no active session) rather than raising. -/
theorem c9_load_user_none (db : DB) (userid : Nat)
    (h : ∀ u ∈ db.users, u.id ≠ userid) :
    load_user db userid = none := by
  unfold load_user
  rw [List.find?_eq_none]
  intro u hu
  simpa using h u hu

/-- C9 witness: the sample store has no user with id 99. -/
theorem c9_load_user_witness :
    (∀ u ∈ sampleDB.users, u.id ≠ 99) ∧ load_user sampleDB 99 = none :=
  ⟨by decide, c9_load_user_none sampleDB 99 (by decide)⟩

/-- C10: every authenticated, validated POST to /taco appends exactly one taco
whose extras field is the submitted extras with surrounding whitespace
stripped; in particular a whitespace-only submission is stored as the empty
string. -/
theorem c10_extras_stripped (db : DB) (uid : Nat) (form : TacoForm)
    (h : form.validate = true) :
    (taco db (some uid) form).2.tacos =
      db.tacos ++
        [{ id := db.nextTacoId, user := uid, protein := form.protein,
           shell := form.shell, cheese := form.cheese,
           extras := pyStrip form.extras }]
    ∧ (form.extras.data.all Char.isWhitespace = true →
        pyStrip form.extras = "") := by
  constructor
  · simp [taco, h]
  · intro hw
    exact pyStrip_all_whitespace form.extras hw

/-- C10 witness: an authenticated submission whose extras is whitespace only
is stored with empty extras. -/
theorem c10_extras_stripped_witness :
    sampleTacoForm.validate = true
    ∧ (taco sampleDB (some 1) sampleTacoForm).2.tacos =
        [{ id := 1, user := 1, protein := "chicken", shell := "flour",
           cheese := false, extras := "" }]
    ∧ pyStrip sampleTacoForm.extras = "" := by
  have hmain := c10_extras_stripped sampleDB 1 sampleTacoForm (by decide)
  refine ⟨by decide, ?_, hmain.2 (by decide)⟩
  rw [hmain.1]
  rfl
